import Mathlib

/-!
Verification of the Image-Builder pipeline (build.py, builder/util.py,
builder/downloader/tar_ball.py) via a shallow embedding in Lean 4.

Python strings are modelled as Lean `String`; Python dict configs as a
`Config` structure carrying the `modules` key (a list of names) plus the
remaining opaque key/value pairs; the external world (processes spawned
via `util.subp`, the filesystem) is modelled as explicit function
parameters.  Machine-level effects (the heap of Python objects) are made
explicit only where a claim is about mutation (`run_modules`).
-/

namespace ImageBuilder

/-- Opaque configuration values (strings, lists, null) as found in the
YAML-loaded build config. -/
inductive Val where
  | vstr : String → Val
  | vlist : List Val → Val
  | vnone : Val

/-- A build configuration: the `modules` key (an ordered list of module
names, absent when the key is missing) together with the remaining
key/value entries, which `run_modules` treats opaquely. -/
structure Config where
  modules : Option (List String)
  rest : List (String × Val)

instance : Inhabited Config := ⟨⟨Option.none, []⟩⟩

/-- Python `s.strip()`: remove leading and trailing whitespace
characters. -/
def pyStrip (s : String) : String :=
  ⟨((s.data.dropWhile Char.isWhitespace).reverse.dropWhile
      Char.isWhitespace).reverse⟩

/-- Python `name.replace('-', '_')` for the single-character pattern used
in `run_modules`: every `-` becomes `_`. -/
def replaceDash (s : String) : String :=
  ⟨s.data.map (fun c => if c = '-' then '_' else c)⟩

/-- The name normalization applied in `run_modules` before resolution:
`real_name.strip()` followed by `.replace('-', '_')` (build.py lines
77–78). -/
def normalize (s : String) : String :=
  replaceDash (pyStrip s)

/-- The behaviour of a customization module's `modify` function: given
(real module name, root directory, its private copy of the config) it
returns the final value it left its config copy in (modelling in-place
mutation of the dict it received) and either success or a raised
exception. -/
abbrev ModFn := String → String → Config → Config × Except String Unit

/-- The result of `run_modules`, instrumented: besides the returned pair
`(which_ran, failures)` it records the sequence of names handed to
`import_module` (`resolved`) and the config values handed to each
module's `modify` (`received`). -/
structure RunState where
  which_ran : List String
  failures : List String
  resolved : List String
  received : List Config

/-- One iteration of the `for real_name in mods` loop of `run_modules`
(build.py lines 76–96).  `resolve` models `import_module` plus
`getattr(mod, 'modify')`: `Option.none` means resolution raised. -/
def runModuleStep (resolve : String → Option ModFn) (root_dir : String)
    (cfg : Config) (st : RunState) (real_name : String) : RunState :=
  let name := normalize real_name
  if name = "" then st
  else
    let st := { st with which_ran := st.which_ran ++ [real_name],
                        resolved := st.resolved ++ [name] }
    match resolve name with
    | Option.none => { st with failures := st.failures ++ [real_name] }
    | Option.some f =>
      let st := { st with received := st.received ++ [cfg] }
      match (f real_name root_dir cfg).2 with
      | Except.ok _ => st
      | Except.error _ => { st with failures := st.failures ++ [real_name] }

/-- `run_modules(root_dir, config)` (build.py lines 69–97): deep-copies
the config, pops the `modules` key (defaulting to the empty list), then
runs each named module in order, catching any exception (resolution
failure or a raised error) and recording it in `failures`.  Each module
invocation receives `copy.deepcopy(config)` of the popped config, here
the value `cfg`. -/
def run_modules (resolve : String → Option ModFn) (root_dir : String)
    (config : Config) : RunState :=
  let cfg : Config := { config with modules := Option.none }
  let mods := config.modules.getD []
  mods.foldl (runModuleStep resolve root_dir cfg) ⟨[], [], [], []⟩

/-- Whether running the module named `real_name` fails: resolution
raises, or the resolved `modify` raises. -/
def modFails (resolve : String → Option ModFn) (root_dir : String)
    (cfg : Config) (real_name : String) : Bool :=
  match resolve (normalize real_name) with
  | Option.none => true
  | Option.some f =>
    match (f real_name root_dir cfg).2 with
    | Except.ok _ => false
    | Except.error _ => true

/-- A module name produces an outcome iff its normalized form is
non-empty (the `if not name: continue` guard, build.py lines 79–80). -/
def attempted (n : String) : Bool := decide (¬ (normalize n = ""))

theorem normalize_eq_empty_iff (n : String) :
    normalize n = "" ↔ pyStrip n = "" := by
  unfold normalize replaceDash
  rw [String.ext_iff, String.ext_iff]
  show (pyStrip n).data.map _ = [] ↔ (pyStrip n).data = []
  exact List.map_eq_nil_iff

theorem attempted_eq (n : String) :
    attempted n = decide (¬ pyStrip n = "") := by
  simp [attempted, decide_eq_decide, normalize_eq_empty_iff]

theorem runLoop_spec (resolve : String → Option ModFn) (root_dir : String)
    (cfg : Config) (mods : List String) : ∀ st : RunState,
    (mods.foldl (runModuleStep resolve root_dir cfg) st).which_ran
        = st.which_ran ++ mods.filter attempted
    ∧ (mods.foldl (runModuleStep resolve root_dir cfg) st).resolved
        = st.resolved ++ (mods.filter attempted).map normalize
    ∧ (mods.foldl (runModuleStep resolve root_dir cfg) st).failures
        = st.failures ++ (mods.filter attempted).filter
            (modFails resolve root_dir cfg)
    ∧ (mods.foldl (runModuleStep resolve root_dir cfg) st).received
        = st.received ++ ((mods.filter attempted).filter
            (fun n => (resolve (normalize n)).isSome)).map (fun _ => cfg) := by
  induction mods with
  | nil => intro st; simp
  | cons hd tl ih =>
    intro st
    rw [List.foldl_cons]
    obtain ⟨h1, h2, h3, h4⟩ := ih (runModuleStep resolve root_dir cfg st hd)
    by_cases h : normalize hd = ""
    · have ha : attempted hd = false := by simp [attempted, h]
      have hstep : runModuleStep resolve root_dir cfg st hd = st := by
        simp [runModuleStep, h]
      rw [hstep] at h1 h2 h3 h4 ⊢
      simp [h1, h2, h3, h4, List.filter_cons, ha]
    · have ha : attempted hd = true := by simp [attempted, h]
      cases hr : resolve (normalize hd) with
      | none =>
        have hf : modFails resolve root_dir cfg hd = true := by
          simp [modFails, hr]
        have hstep : runModuleStep resolve root_dir cfg st hd
            = { st with which_ran := st.which_ran ++ [hd],
                        resolved := st.resolved ++ [normalize hd],
                        failures := st.failures ++ [hd] } := by
          simp [runModuleStep, h, hr]
        rw [hstep] at h1 h2 h3 h4 ⊢
        simp [h1, h2, h3, h4, List.filter_cons, ha, hf, hr, List.append_assoc]
      | some f =>
        cases hrun : (f hd root_dir cfg).2 with
        | ok u =>
          have hf : modFails resolve root_dir cfg hd = false := by
            simp [modFails, hr, hrun]
          have hstep : runModuleStep resolve root_dir cfg st hd
              = { st with which_ran := st.which_ran ++ [hd],
                          resolved := st.resolved ++ [normalize hd],
                          received := st.received ++ [cfg] } := by
            simp [runModuleStep, h, hr, hrun]
          rw [hstep] at h1 h2 h3 h4 ⊢
          simp [h1, h2, h3, h4, List.filter_cons, ha, hf, hr, List.append_assoc]
        | error e =>
          have hf : modFails resolve root_dir cfg hd = true := by
            simp [modFails, hr, hrun]
          have hstep : runModuleStep resolve root_dir cfg st hd
              = { st with which_ran := st.which_ran ++ [hd],
                          resolved := st.resolved ++ [normalize hd],
                          failures := st.failures ++ [hd],
                          received := st.received ++ [cfg] } := by
            simp [runModuleStep, h, hr, hrun]
          rw [hstep] at h1 h2 h3 h4 ⊢
          simp [h1, h2, h3, h4, List.filter_cons, ha, hf, hr, List.append_assoc]

/-- Full characterization of `run_modules`: `which_ran` is exactly the
non-blank configured names in order, `resolved` their normalized forms,
`failures` the failing subset, and `received` one copy of the popped
config per successfully resolved module. -/
theorem run_modules_spec (resolve : String → Option ModFn) (root_dir : String)
    (config : Config) :
    (run_modules resolve root_dir config).which_ran
        = (config.modules.getD []).filter attempted
    ∧ (run_modules resolve root_dir config).resolved
        = ((config.modules.getD []).filter attempted).map normalize
    ∧ (run_modules resolve root_dir config).failures
        = ((config.modules.getD []).filter attempted).filter
            (modFails resolve root_dir { config with modules := Option.none })
    ∧ (run_modules resolve root_dir config).received
        = (((config.modules.getD []).filter attempted).filter
            (fun n => (resolve (normalize n)).isSome)).map
            (fun _ => { config with modules := Option.none }) := by
  have h := runLoop_spec resolve root_dir { config with modules := Option.none }
      (config.modules.getD []) ⟨[], [], [], []⟩
  simpa [run_modules] using h

/-- C4: for every configured module list, the number of recorded outcomes
(entries of the `which_ran` list returned by `run_modules`) equals the
number of configured names that are non-empty after stripping
whitespace; blank or whitespace-only names produce no outcome, and the
name handed to module resolution for each remaining entry is its
stripped form with every `-` replaced by `_`. -/
theorem claim_C4 (resolve : String → Option ModFn) (root_dir : String)
    (config : Config) :
    (run_modules resolve root_dir config).which_ran.length
        = ((config.modules.getD []).filter
            (fun n => decide (¬ pyStrip n = ""))).length
    ∧ (run_modules resolve root_dir config).which_ran
        = (config.modules.getD []).filter (fun n => decide (¬ pyStrip n = ""))
    ∧ (run_modules resolve root_dir config).resolved
        = ((config.modules.getD []).filter
            (fun n => decide (¬ pyStrip n = ""))).map
            (fun n => replaceDash (pyStrip n)) := by
  obtain ⟨h1, h2, -, -⟩ := run_modules_spec resolve root_dir config
  have hfilter : (config.modules.getD []).filter attempted
      = (config.modules.getD []).filter (fun n => decide (¬ pyStrip n = "")) :=
    List.filter_congr (fun n _ => attempted_eq n)
  refine ⟨?_, ?_, ?_⟩
  · rw [h1, hfilter]
  · rw [h1, hfilter]
  · rw [h2, hfilter]; rfl

/-- C3: an exception while running the module at any position — a
resolution failure (`resolve` returns nothing) or an error raised by the
module — is recorded as a failure outcome for that module, and every
non-blank name in the list is still attempted (`which_ran` is the full
filtered list) regardless of which modules fail; `run_modules` is a
total function into `RunState`, so no module exception propagates to the
caller. -/
theorem claim_C3 (resolve : String → Option ModFn) (root_dir : String)
    (config : Config) (i : Nat) (hi : i < (config.modules.getD []).length)
    (hname : ¬ normalize ((config.modules.getD []).get ⟨i, hi⟩) = "")
    (hfail : modFails resolve root_dir { config with modules := Option.none }
        ((config.modules.getD []).get ⟨i, hi⟩) = true) :
    (config.modules.getD []).get ⟨i, hi⟩
        ∈ (run_modules resolve root_dir config).failures
    ∧ (run_modules resolve root_dir config).which_ran
        = (config.modules.getD []).filter attempted := by
  obtain ⟨h1, -, h3, -⟩ := run_modules_spec resolve root_dir config
  refine ⟨?_, h1⟩
  rw [h3]
  refine List.mem_filter.mpr ⟨List.mem_filter.mpr ⟨List.get_mem _ _ _, ?_⟩, hfail⟩
  simpa [attempted] using hname

theorem claim_C3_witness :
    ("bad-mod" ∈ (run_modules (fun _ => Option.none) "/mnt"
        ⟨Option.some ["bad-mod", "other"], []⟩).failures)
    ∧ (run_modules (fun _ => Option.none) "/mnt"
        ⟨Option.some ["bad-mod", "other"], []⟩).which_ran
        = ["bad-mod", "other"].filter attempted :=
  claim_C3 (fun _ => Option.none) "/mnt" ⟨Option.some ["bad-mod", "other"], []⟩
    0 (by decide) (by decide) (by decide)

/-- The outcome of the tail of `main` after `activate_modules` returns
(build.py lines 421–436): whether `ec2_convert` (the packaging stage)
is invoked, and the value `main` returns, which the process passes to
`sys.exit` (build.py lines 440–442). -/
structure MainTail where
  ec2_convert_invoked : Bool
  exit_code : Nat

/-- `if len(fails): ... return len(fails)` else run `ec2_convert` and
`return 0` (build.py lines 427–436). -/
def main_tail (fails : List String) : MainTail :=
  if fails.length ≠ 0 then ⟨false, fails.length⟩
  else ⟨true, 0⟩

/-- C1: for every build, if the module runner reports a non-zero number
of failures, packaging (`ec2_convert`) is never invoked and the process
exit status equals the number of failed modules; if the failure count is
zero, packaging runs and the exit status is 0. -/
theorem claim_C1 (resolve : String → Option ModFn) (root_dir : String)
    (config : Config) :
    ((run_modules resolve root_dir config).failures.length ≠ 0 →
      main_tail (run_modules resolve root_dir config).failures
        = ⟨false, (run_modules resolve root_dir config).failures.length⟩)
    ∧ ((run_modules resolve root_dir config).failures.length = 0 →
      main_tail (run_modules resolve root_dir config).failures
        = ⟨true, 0⟩) := by
  constructor <;> intro h <;> simp [main_tail, h]

theorem claim_C1_witness :
    main_tail (run_modules (fun _ => Option.none) "/mnt"
        ⟨Option.some ["m1"], []⟩).failures = ⟨false, 1⟩ := by
  have h := (claim_C1 (fun _ => Option.none) "/mnt" ⟨Option.some ["m1"], []⟩).1
  have hl : (run_modules (fun _ => Option.none) "/mnt"
      ⟨Option.some ["m1"], []⟩).failures.length = 1 := by decide
  rw [h (by decide), hl]

/-! ### Heap model of Python object mutation for `run_modules`

To settle the frame claims about `copy.deepcopy` (build.py lines 70 and
89), Python dict objects are given explicit identity: a heap is a list
of `Config` cells and an address is an index.  `copy.deepcopy(x)`
allocates a fresh cell holding the value of `x`, so a mutation of the
copy (modelled as writing the value a module left its dict in) can
never reach the original cell. -/

structure Heap where
  cells : List Config

def Heap.read (h : Heap) (a : Nat) : Config := h.cells.getD a default

def Heap.write (h : Heap) (a : Nat) (v : Config) : Heap := ⟨h.cells.set a v⟩

def Heap.alloc (h : Heap) (v : Config) : Heap × Nat :=
  (⟨h.cells ++ [v]⟩, h.cells.length)

theorem Heap.read_alloc_lt (h : Heap) (v : Config) (a : Nat)
    (ha : a < h.cells.length) : (h.alloc v).1.read a = h.read a :=
  List.getD_append _ _ _ _ ha

theorem Heap.read_alloc_self (h : Heap) (v : Config) :
    (h.alloc v).1.read h.cells.length = v := by
  simp [Heap.alloc, Heap.read, List.getD_eq_getElem?_getD,
    List.getElem?_concat_length]

theorem Heap.read_write_ne (h : Heap) (b : Nat) (v : Config) (a : Nat)
    (hab : a ≠ b) : (h.write b v).read a = h.read a := by
  simp [Heap.write, Heap.read, List.getD_eq_getElem?_getD,
    List.getElem?_set_ne (Ne.symm hab)]

theorem Heap.read_write_self (h : Heap) (b : Nat) (v : Config)
    (hb : b < h.cells.length) : (h.write b v).read b = v := by
  simp [Heap.write, Heap.read, List.getD_eq_getElem?_getD,
    List.getElem?_set_self hb]

theorem Heap.length_write (h : Heap) (b : Nat) (v : Config) :
    (h.write b v).cells.length = h.cells.length :=
  List.length_set h.cells b v

theorem Heap.length_alloc (h : Heap) (v : Config) :
    (h.alloc v).1.cells.length = h.cells.length + 1 := by
  simp [Heap.alloc]

/-- State of the `run_modules` loop over the heap: the heap, the two
result lists, and (instrumentation) the config values received by the
module invocations. -/
structure HRunState where
  heap : Heap
  which_ran : List String
  failures : List String
  received : List Config

/-- One iteration of the `run_modules` loop over the heap.  `localA` is
the address of `run_modules`'s own deep copy of the config (already
popped).  Line 89's `copy.deepcopy(config)` allocates a fresh cell; the
module's in-place mutation of the dict it received is the write-back of
the value it returns, at that fresh address only. -/
def runModuleStepH (resolve : String → Option ModFn) (root_dir : String)
    (localA : Nat) (st : HRunState) (real_name : String) : HRunState :=
  let name := normalize real_name
  if name = "" then st
  else
    let st := { st with which_ran := st.which_ran ++ [real_name] }
    match resolve name with
    | Option.none => { st with failures := st.failures ++ [real_name] }
    | Option.some f =>
      let h1 := (st.heap.alloc (st.heap.read localA)).1
      let argA := (st.heap.alloc (st.heap.read localA)).2
      let arg := h1.read argA
      let stepped := f real_name root_dir arg
      let h2 := h1.write argA stepped.1
      let st := { st with heap := h2, received := st.received ++ [arg] }
      match stepped.2 with
      | Except.ok _ => st
      | Except.error _ => { st with failures := st.failures ++ [real_name] }

/-- `run_modules` over the explicit heap: line 70's
`config = copy.deepcopy(config)` allocates a fresh cell `localA`;
popping `modules` writes the popped value back to `localA` (never to
the caller's cell `configA`); the loop then runs. -/
def run_modules_heap (resolve : String → Option ModFn) (root_dir : String)
    (h : Heap) (configA : Nat) : HRunState :=
  let h1 := (h.alloc (h.read configA)).1
  let localA := (h.alloc (h.read configA)).2
  let mods := (h1.read localA).modules.getD []
  let h2 := h1.write localA { h1.read localA with modules := Option.none }
  mods.foldl (runModuleStepH resolve root_dir localA) ⟨h2, [], [], []⟩

theorem stepH_spec (resolve : String → Option ModFn) (root_dir : String)
    (localA : Nat) (popped : Config) (st : HRunState) (real_name : String)
    (hlen : localA < st.heap.cells.length)
    (hloc : st.heap.read localA = popped) :
    localA < (runModuleStepH resolve root_dir localA st real_name).heap.cells.length
    ∧ (runModuleStepH resolve root_dir localA st real_name).heap.read localA
        = popped
    ∧ (∀ a, a < localA →
        (runModuleStepH resolve root_dir localA st real_name).heap.read a
          = st.heap.read a)
    ∧ (∀ c, c ∈ (runModuleStepH resolve root_dir localA st real_name).received
        → c ∈ st.received ∨ c = popped) := by
  by_cases h : normalize real_name = ""
  · have hstep : runModuleStepH resolve root_dir localA st real_name = st := by
      simp [runModuleStepH, h]
    rw [hstep]
    exact ⟨hlen, hloc, fun a _ => rfl, fun c hc => Or.inl hc⟩
  · unfold runModuleStepH
    simp only [if_neg h]
    cases hr : resolve (normalize real_name) with
    | none =>
      exact ⟨hlen, hloc, fun a _ => rfl, fun c hc => Or.inl hc⟩
    | some f =>
      have hargA : (st.heap.alloc (st.heap.read localA)).2
          = st.heap.cells.length := rfl
      have hne : localA ≠ (st.heap.alloc (st.heap.read localA)).2 := by
        rw [hargA]; exact Nat.ne_of_lt hlen
      have harg : ((st.heap.alloc (st.heap.read localA)).1).read
          ((st.heap.alloc (st.heap.read localA)).2) = popped := by
        rw [hargA]
        rw [Heap.read_alloc_self]
        exact hloc
      have hlen2 : ∀ v : Config, localA <
          (((st.heap.alloc (st.heap.read localA)).1).write
            ((st.heap.alloc (st.heap.read localA)).2) v).cells.length := by
        intro v
        rw [Heap.length_write, Heap.length_alloc]
        exact Nat.lt_succ_of_lt hlen
      have hreadloc : ∀ v,
          (((st.heap.alloc (st.heap.read localA)).1).write
            ((st.heap.alloc (st.heap.read localA)).2) v).read localA
          = popped := by
        intro v
        rw [Heap.read_write_ne _ _ _ _ hne, Heap.read_alloc_lt _ _ _ hlen]
        exact hloc
      have hframe : ∀ v a, a < localA →
          (((st.heap.alloc (st.heap.read localA)).1).write
            ((st.heap.alloc (st.heap.read localA)).2) v).read a
          = st.heap.read a := by
        intro v a ha
        have hne2 : a ≠ (st.heap.alloc (st.heap.read localA)).2 := by
          rw [hargA]; exact Nat.ne_of_lt (Nat.lt_trans ha hlen)
        rw [Heap.read_write_ne _ _ _ _ hne2,
          Heap.read_alloc_lt _ _ _ (Nat.lt_trans ha hlen)]
      cases hrun : (f real_name root_dir
          (((st.heap.alloc (st.heap.read localA)).1).read
            ((st.heap.alloc (st.heap.read localA)).2))).2 with
      | ok u =>
        simp only [hrun]
        refine ⟨hlen2 _, hreadloc _, hframe _, ?_⟩
        intro c hc
        rw [List.mem_append] at hc
        rcases hc with hc | hc
        · exact Or.inl hc
        · right
          rw [List.mem_singleton] at hc
          rw [hc, harg]
      | error e =>
        simp only [hrun]
        refine ⟨hlen2 _, hreadloc _, hframe _, ?_⟩
        intro c hc
        rw [List.mem_append] at hc
        rcases hc with hc | hc
        · exact Or.inl hc
        · right
          rw [List.mem_singleton] at hc
          rw [hc, harg]

theorem runLoopH_spec (resolve : String → Option ModFn) (root_dir : String)
    (localA : Nat) (popped : Config) (mods : List String) :
    ∀ st : HRunState, localA < st.heap.cells.length →
    st.heap.read localA = popped →
    localA < (mods.foldl (runModuleStepH resolve root_dir localA) st).heap.cells.length
    ∧ (mods.foldl (runModuleStepH resolve root_dir localA) st).heap.read localA
        = popped
    ∧ (∀ a, a < localA →
        (mods.foldl (runModuleStepH resolve root_dir localA) st).heap.read a
          = st.heap.read a)
    ∧ (∀ c, c ∈ (mods.foldl (runModuleStepH resolve root_dir localA) st).received
        → c ∈ st.received ∨ c = popped) := by
  induction mods with
  | nil => intro st h1 h2; exact ⟨h1, h2, fun a _ => rfl, fun c hc => Or.inl hc⟩
  | cons hd tl ih =>
    intro st h1 h2
    rw [List.foldl_cons]
    obtain ⟨s1, s2, s3, s4⟩ := stepH_spec resolve root_dir localA popped st hd h1 h2
    obtain ⟨t1, t2, t3, t4⟩ := ih (runModuleStepH resolve root_dir localA st hd) s1 s2
    refine ⟨t1, t2, ?_, ?_⟩
    · intro a ha
      rw [t3 a ha, s3 a ha]
    · intro c hc
      rcases t4 c hc with hc2 | hc2
      · exact s4 c hc2
      · exact Or.inr hc2

/-- C9: `run_modules` never mutates the caller's config object — after
the call every pre-existing heap cell, in particular the caller's config
at `configA`, holds its original value — and every module invocation
receives its own deep copy of the config from which the `modules` key
has been removed: each received value equals the caller's config minus
`modules` (independently of how any other module mutated its copy), so
no module observes the module list or the config seen by another
module. -/
theorem claim_C9 (resolve : String → Option ModFn) (root_dir : String)
    (h : Heap) (configA : Nat) (hA : configA < h.cells.length) :
    (∀ a, a < h.cells.length →
      (run_modules_heap resolve root_dir h configA).heap.read a = h.read a)
    ∧ (∀ c, c ∈ (run_modules_heap resolve root_dir h configA).received →
        c = { h.read configA with modules := Option.none })
    ∧ (∀ c, c ∈ (run_modules_heap resolve root_dir h configA).received →
        c.modules = Option.none) := by
  have hlocA : (h.alloc (h.read configA)).2 = h.cells.length := rfl
  have hrd : ((h.alloc (h.read configA)).1).read
      ((h.alloc (h.read configA)).2) = h.read configA := by
    rw [hlocA]; exact Heap.read_alloc_self h _
  have hwlen : ((h.alloc (h.read configA)).2)
      < (((h.alloc (h.read configA)).1).write ((h.alloc (h.read configA)).2)
          { ((h.alloc (h.read configA)).1).read ((h.alloc (h.read configA)).2)
            with modules := Option.none }).cells.length := by
    rw [Heap.length_write, Heap.length_alloc, hlocA]
    exact Nat.lt_succ_self _
  have hwread : (((h.alloc (h.read configA)).1).write
        ((h.alloc (h.read configA)).2)
        { ((h.alloc (h.read configA)).1).read ((h.alloc (h.read configA)).2)
          with modules := Option.none }).read ((h.alloc (h.read configA)).2)
      = { h.read configA with modules := Option.none } := by
    rw [Heap.read_write_self]
    · rw [hrd]
    · rw [Heap.length_alloc, hlocA]
      exact Nat.lt_succ_self _
  obtain ⟨t1, t2, t3, t4⟩ := runLoopH_spec resolve root_dir
    ((h.alloc (h.read configA)).2)
    { h.read configA with modules := Option.none }
    ((((h.alloc (h.read configA)).1).read
        ((h.alloc (h.read configA)).2)).modules.getD [])
    ⟨((h.alloc (h.read configA)).1).write ((h.alloc (h.read configA)).2)
        { ((h.alloc (h.read configA)).1).read ((h.alloc (h.read configA)).2)
          with modules := Option.none }, [], [], []⟩
    hwlen hwread
  refine ⟨?_, ?_, ?_⟩
  · intro a ha
    have haloc : a < (h.alloc (h.read configA)).2 := by rw [hlocA]; exact ha
    have hbase : (((h.alloc (h.read configA)).1).write
          ((h.alloc (h.read configA)).2)
          { ((h.alloc (h.read configA)).1).read ((h.alloc (h.read configA)).2)
            with modules := Option.none }).read a = h.read a := by
      rw [Heap.read_write_ne _ _ _ _ (Nat.ne_of_lt haloc),
        Heap.read_alloc_lt _ _ _ ha]
    have := t3 a haloc
    rw [run_modules_heap]
    rw [this, hbase]
  · intro c hc
    rw [run_modules_heap] at hc
    rcases t4 c hc with hc2 | hc2
    · exact absurd hc2 (List.not_mem_nil c)
    · exact hc2
  · intro c hc
    rw [run_modules_heap] at hc
    rcases t4 c hc with hc2 | hc2
    · exact absurd hc2 (List.not_mem_nil c)
    · rw [hc2]

theorem claim_C9_witness :
    (0 < (Heap.mk [(⟨Option.some ["m"], []⟩ : Config)]).cells.length)
    ∧ ((∀ a, a < (Heap.mk [(⟨Option.some ["m"], []⟩ : Config)]).cells.length →
        (run_modules_heap (fun _ => Option.none) "/mnt"
          (Heap.mk [(⟨Option.some ["m"], []⟩ : Config)]) 0).heap.read a
          = (Heap.mk [(⟨Option.some ["m"], []⟩ : Config)]).read a)
      ∧ (∀ c, c ∈ (run_modules_heap (fun _ => Option.none) "/mnt"
          (Heap.mk [(⟨Option.some ["m"], []⟩ : Config)]) 0).received →
          c = { (Heap.mk [(⟨Option.some ["m"], []⟩ : Config)]).read 0
                with modules := Option.none })
      ∧ (∀ c, c ∈ (run_modules_heap (fun _ => Option.none) "/mnt"
          (Heap.mk [(⟨Option.some ["m"], []⟩ : Config)]) 0).received →
          c.modules = Option.none)) :=
  ⟨Nat.zero_lt_one, claim_C9 (fun _ => Option.none) "/mnt"
    (Heap.mk [(⟨Option.some ["m"], []⟩ : Config)]) 0 Nat.zero_lt_one⟩

/-! ### `fix_fstab` (build.py lines 100–113) -/

/-- Python `'%<n>s' % s`: right-justify `s` in a field of `n`
characters (no padding when `s` is already at least `n` long). -/
def pyRJust (n : Nat) (s : String) : String :=
  ⟨List.replicate (n - s.data.length) ' ' ++ s.data⟩

/-- The generated fstab entry line,
`'%s%14s%14s%14s%14s%6s' % ('LABEL=root', '/', fstype, 'defaults', '0', '0')`
(build.py lines 106–107). -/
def fstab_line (fstype : String) : String :=
  "LABEL=root" ++ pyRJust 14 "/" ++ pyRJust 14 fstype
    ++ pyRJust 14 "defaults" ++ pyRJust 14 "0" ++ pyRJust 6 "0"

/-- The full contents `fix_fstab` writes to `<root_dir>/etc/fstab`
(build.py lines 104–113): the timestamp comment joined to the entry line
with a newline, plus the trailing newline of `"%s\n" % contents`.  `ts`
is the value of `util.time_rfc2822()`. -/
def fix_fstab_contents (ts fstype : String) : String :=
  "# Generated on " ++ ts ++ "\n" ++ fstab_line fstype ++ "\n"

/-- The fstab contents as the specification sentence describes them:
`LABEL=root`, 8 spaces, `/`, 6 spaces, the filesystem type, 4 spaces,
`defaults`, 3 spaces, `0`, 2 spaces, `0`, with the same comment header
and trailing newline.  (Refinement target only; the source disagrees.) -/
def spec_fstab_contents (ts fstype : String) : String :=
  "# Generated on " ++ ts ++ "\n" ++ "LABEL=root        /      " ++ fstype
    ++ "    defaults   0  0" ++ "\n"

theorem claim_C5_counterexample :
    fix_fstab_contents "Tue, 01 Jan 2013 00:00:00 +0000" "ext4"
      ≠ spec_fstab_contents "Tue, 01 Jan 2013 00:00:00 +0000" "ext4" := by
  decide

/-- C5 (amended): the `%14s`/`%6s` conversions right-justify each field,
so the entry line is `LABEL=root`, 13 spaces, `/`, `14 − |fstype|`
spaces, the filesystem type, 6 spaces, `defaults`, 13 spaces, `0`,
5 spaces, `0` — not the 8/6/4/3/2-space layout the claim states.  The
leading `# Generated on <timestamp>` comment line and the terminating
newline are as claimed. -/
theorem claim_C5 (ts fstype : String) :
    fix_fstab_contents ts fstype
      = "# Generated on " ++ ts ++ "\n" ++ "LABEL=root"
        ++ String.mk (List.replicate 13 ' ') ++ "/"
        ++ String.mk (List.replicate (14 - fstype.data.length) ' ') ++ fstype
        ++ String.mk (List.replicate 6 ' ') ++ "defaults"
        ++ String.mk (List.replicate 13 ' ') ++ "0"
        ++ String.mk (List.replicate 5 ' ') ++ "0" ++ "\n" := by
  have e1 : (14 : Nat) - "/".data.length = 13 := by decide
  have e2 : (14 : Nat) - "defaults".data.length = 6 := by decide
  have e3 : (14 : Nat) - "0".data.length = 13 := by decide
  have e4 : (6 : Nat) - "0".data.length = 5 := by decide
  rw [String.ext_iff]
  simp only [fix_fstab_contents, fstab_line, pyRJust, String.data_append,
    List.append_assoc, e1, e2, e3, e4]

/-! ### `util.subp` (builder/util.py lines 455–484) and its call sites -/

/-- The data carried by `util.ProcessExecutionError`: the command, the
exit code (absent — rendered `-` — when the process never started), the
captured stdout/stderr (empty when not captured), and the reason. -/
structure ProcessExecutionError where
  cmd : List String
  exit_code : Option Int
  stdout : String
  stderr : String
  reason : String
deriving DecidableEq

/-- The external process world: given a command and the data written to
its stdin, either the process fails to start (`OSError`: no result) or
it runs, yielding an exit code and its stdout/stderr output. -/
abbrev World := List String → Option String → Option (Int × String × String)

/-- `if rcs is None: rcs = [0]` — the default allowed-exit-code set of
`util.subp` (util.py lines 455–457). -/
def subp_default_rcs : List Int := [0]

/-- `util.subp(args, data, rcs, capture)` (util.py lines 455–484):
raises `ProcessExecutionError` when the process cannot be started
(`OSError`, reason set, no exit code) or when its exit code is not in
`rcs`; otherwise returns the pair of captured outputs (blank when
`capture` is off). -/
def subp (world : World) (args : List String) (data : Option String)
    (rcs : Option (List Int)) (capture : Bool) :
    Except ProcessExecutionError (String × String) :=
  let rcs := rcs.getD subp_default_rcs
  match world args data with
  | Option.none => Except.error ⟨args, Option.none, "", "", "OSError"⟩
  | Option.some (rc, out, err) =>
    let out := if capture then out else ""
    let err := if capture then err else ""
    if rc ∈ rcs then Except.ok (out, err)
    else Except.error ⟨args, Option.some rc, out, err, "-"⟩

/-- A `util.subp` call site: the command issued and the `rcs` argument
passed (absent when the call site relies on the default). -/
structure SubpCall where
  args : List String
  rcs : Option (List Int)
deriving DecidableEq

/-- `cmd_undo(undo_how)` (build.py lines 53–61): a context manager that
yields to the body and, in its `finally` block, invokes
`util.subp(undo_how)` exactly once — whether the body completed or
raised — swallowing any exception of the release command itself
(`except: pass`).  Result: the body's outcome unchanged, paired with the
release commands issued during teardown. -/
def cmd_undo {α : Type} (world : World) (undo_how : List String)
    (body : Except ProcessExecutionError α) :
    Except ProcessExecutionError α × List SubpCall :=
  let _undone := subp world undo_how Option.none Option.none true
  (body, [⟨undo_how, Option.none⟩])

/-- C2: for every resource guarded by `cmd_undo`, the release command is
issued exactly once whether the guarded body completed or raised; the
body's outcome is returned unchanged for every possible behaviour of the
release command (a release failure is swallowed and can never mask the
original error); and nesting two guards unwinds inner-then-outer with
both releases issued, regardless of any failure. -/
theorem claim_C2 {α : Type} (world : World) (u_inner u_outer : List String)
    (body : Except ProcessExecutionError α) :
    ((cmd_undo world u_inner body).1 = body
      ∧ (cmd_undo world u_inner body).2 = [⟨u_inner, Option.none⟩])
    ∧ ((cmd_undo world u_outer (cmd_undo world u_inner body).1).1 = body
      ∧ (cmd_undo world u_inner body).2
          ++ (cmd_undo world u_outer (cmd_undo world u_inner body).1).2
          = [⟨u_inner, Option.none⟩, ⟨u_outer, Option.none⟩]) :=
  ⟨⟨rfl, rfl⟩, rfl, rfl⟩

/-- `PART_OFFSET = 63 * 512` (build.py line 50). -/
def PART_OFFSET : Nat := 63 * 512

/-- The `losetup` command built by `create_loopback` (build.py lines
318–322): `-o <offset>` only when a (truthy) offset was given. -/
def create_loopback_cmd (filename : String) (offset : Option Nat) :
    List String :=
  ["losetup"] ++ (match offset with
    | Option.some o => ["-o", toString o]
    | Option.none => []) ++ ["--show", "-f", filename]

/-- `create_loopback(filename, offset)` (build.py lines 318–325): runs
`losetup` through `subp` (default `rcs`) and returns the stripped
stdout as the device name, together with the call issued. -/
def create_loopback (world : World) (filename : String) (offset : Option Nat) :
    Except ProcessExecutionError String × List SubpCall :=
  let cmd := create_loopback_cmd filename offset
  (match subp world cmd Option.none Option.none true with
    | Except.ok (out, _) => Except.ok (pyStrip out)
    | Except.error e => Except.error e,
   [⟨cmd, Option.none⟩])

/-- The scripted fdisk session of `format_blank` (build.py lines
294–301): new partition, primary, number 1, default first block, default
last block, write. -/
def fdisk_input : List String := ["n", "p", "1", "1", "", "w"]

/-- `format_blank(tmp_file_name, size, fs_type)` (build.py lines
277–315): create the raw image with `qemu-img`, partition it with
`fdisk` through a loop device (allowed exit codes `[0, 1]`, stdin fed
the scripted session), then build the filesystem with `mkfs.<fs_type>`
through a second loop device; each loop device is released by a
`cmd_undo` guard.  Returns the outcome and the ordered `subp` calls
issued. -/
def format_blank (world : World) (tmp_file_name size fs_type : String) :
    Except ProcessExecutionError Unit × List SubpCall :=
  let c1 : SubpCall :=
    ⟨["qemu-img", "create", "-f", "raw", tmp_file_name, size], Option.none⟩
  match subp world c1.args Option.none Option.none true with
  | Except.error e => (Except.error e, [c1])
  | Except.ok _ =>
    let lb1 := create_loopback world tmp_file_name Option.none
    match lb1.1 with
    | Except.error e => (Except.error e, [c1] ++ lb1.2)
    | Except.ok devname =>
      let cf : SubpCall := ⟨["fdisk", devname], Option.some [0, 1]⟩
      let rf := subp world cf.args
        (Option.some (String.intercalate "\n" fdisk_input))
        (Option.some [0, 1]) true
      let undo1 := cmd_undo world ["losetup", "-d", devname]
        (rf.map (fun _ => ()))
      let t1 := [c1] ++ lb1.2 ++ [cf] ++ undo1.2
      match undo1.1 with
      | Except.error e => (Except.error e, t1)
      | Except.ok _ =>
        let lb2 := create_loopback world tmp_file_name (Option.some PART_OFFSET)
        match lb2.1 with
        | Except.error e => (Except.error e, t1 ++ lb2.2)
        | Except.ok devname2 =>
          let cm : SubpCall := ⟨["mkfs." ++ fs_type, devname2], Option.none⟩
          let rm := subp world cm.args Option.none Option.none true
          let undo2 := cmd_undo world ["losetup", "-d", devname2]
            (rm.map (fun _ => ()))
          let t2 := t1 ++ lb2.2 ++ [cm] ++ undo2.2
          match undo2.1 with
          | Except.error e => (Except.error e, t2)
          | Except.ok _ => (Except.ok (), t2)

theorem mkfs_ne_fdisk (fs : String) : ("mkfs." ++ fs) ≠ "fdisk" := by
  intro h
  have h2 : ("mkfs." ++ fs).data.head? = "fdisk".data.head? := by rw [h]
  rw [String.data_append] at h2
  have h3 : ("mkfs.".data ++ fs.data).head? = Option.some 'm' := rfl
  have h4 : "fdisk".data.head? = Option.some 'f' := rfl
  rw [h3, h4] at h2
  exact absurd (Option.some.inj h2) (by decide)

/-- Every call `format_blank` can issue uses the default allowed set
except the fdisk call, which passes `[0, 1]`. -/
theorem format_blank_rcs (world : World) (tmp size fs : String) :
    ∀ c, c ∈ (format_blank world tmp size fs).2 →
      c.rcs = if c.args.head? = Option.some "fdisk"
        then Option.some [0, 1] else Option.none := by
  intro c hc
  unfold format_blank at hc
  cases h1 : subp world ["qemu-img", "create", "-f", "raw", tmp, size]
      Option.none Option.none true with
  | error e1 =>
    simp only [h1] at hc
    fin_cases hc <;> simp [create_loopback_cmd, mkfs_ne_fdisk]
  | ok r1 =>
    simp only [h1] at hc
    cases h2 : subp world (create_loopback_cmd tmp Option.none)
        Option.none Option.none true with
    | error e2 =>
      simp only [cmd_undo, create_loopback, h2, List.singleton_append,
        List.cons_append, List.nil_append] at hc
      fin_cases hc <;> simp [create_loopback_cmd, mkfs_ne_fdisk]
    | ok r2 =>
      obtain ⟨out2, err2⟩ := r2
      simp only [cmd_undo, create_loopback, h2, List.singleton_append,
        List.cons_append, List.nil_append] at hc
      cases h3 : subp world ["fdisk", pyStrip out2]
          (Option.some (String.intercalate "\n" fdisk_input))
          (Option.some [0, 1]) true with
      | error e3 =>
        simp only [h3, Except.map] at hc
        fin_cases hc <;> simp [create_loopback_cmd, mkfs_ne_fdisk]
      | ok r3 =>
        simp only [h3, Except.map] at hc
        cases h4 : subp world (create_loopback_cmd tmp (Option.some PART_OFFSET))
            Option.none Option.none true with
        | error e4 =>
          simp only [h4] at hc
          fin_cases hc <;> simp [create_loopback_cmd, mkfs_ne_fdisk]
        | ok r4 =>
          obtain ⟨out4, err4⟩ := r4
          simp only [h4] at hc
          cases h5 : subp world ["mkfs." ++ fs, pyStrip out4]
              Option.none Option.none true with
          | error e5 =>
            simp only [h5, Except.map] at hc
            fin_cases hc <;> simp [create_loopback_cmd, mkfs_ne_fdisk]
          | ok r5 =>
            simp only [h5, Except.map] at hc
            fin_cases hc <;> simp [create_loopback_cmd, mkfs_ne_fdisk]

/-- C6: `subp` raises an error — carrying the command, the exit code (or
none when the process never started), the captured outputs and a reason
— exactly when the process fails to start or exits with a code outside
the allowed set; the allowed set defaults to `[0]`, and among the
partitioning stage's call sites only the fdisk invocation passes a
non-default set, exactly `[0, 1]`. -/
theorem claim_C6 (world : World) (args : List String) (data : Option String)
    (rcs : Option (List Int)) (capture : Bool) (tmp size fs : String) :
    (world args data = Option.none →
      subp world args data rcs capture
        = Except.error ⟨args, Option.none, "", "", "OSError"⟩)
    ∧ (∀ rc out err, world args data = Option.some (rc, out, err) →
        (rc ∈ rcs.getD subp_default_rcs →
          subp world args data rcs capture
            = Except.ok (if capture then out else "",
                if capture then err else ""))
        ∧ (rc ∉ rcs.getD subp_default_rcs →
          subp world args data rcs capture
            = Except.error ⟨args, Option.some rc, (if capture then out else ""),
                (if capture then err else ""), "-"⟩))
    ∧ subp_default_rcs = [0]
    ∧ (∀ c, c ∈ (format_blank world tmp size fs).2 →
        c.rcs = if c.args.head? = Option.some "fdisk"
          then Option.some [0, 1] else Option.none) := by
  refine ⟨?_, ?_, rfl, format_blank_rcs world tmp size fs⟩
  · intro h
    simp [subp, h]
  · intro rc out err h
    constructor
    · intro hin
      simp [subp, h, hin]
    · intro hout
      simp [subp, h, hout]

theorem claim_C6_witness :
    (subp (fun _ _ => Option.none) ["mount", "/dev/loop0", "/mnt"]
        Option.none Option.none true
      = Except.error ⟨["mount", "/dev/loop0", "/mnt"], Option.none,
          "", "", "OSError"⟩)
    ∧ ((⟨["fdisk", "/dev/loop0"], Option.some [0, 1]⟩ : SubpCall).rcs
      = if (["fdisk", "/dev/loop0"].head? = Option.some "fdisk")
        then Option.some [0, 1] else Option.none) :=
  ⟨(claim_C6 (fun _ _ => Option.none) ["mount", "/dev/loop0", "/mnt"]
      Option.none Option.none true "/tmp/x.raw" "1G" "ext4").1 rfl,
   (claim_C6 (fun _ _ => Option.some ((0 : Int), "/dev/loop0\n", ""))
      ["true"] Option.none Option.none true "/tmp/x.raw" "1G" "ext4").2.2.2
      ⟨["fdisk", "/dev/loop0"], Option.some [0, 1]⟩ (by decide)⟩

/-! ### Boot artifact discovery in `ec2_convert` (build.py lines 191–220) -/

/-- Python `s.startswith(pre)`. -/
def pyStartsWith (s pre : String) : Bool := pre.data.isPrefixOf s.data

/-- Python `s.endswith(suf)`. -/
def pyEndsWith (s suf : String) : Bool :=
  suf.data.reverse.isPrefixOf s.data.reverse

/-- Python `s[0:-n]`. -/
def pyDropRight (s : String) (n : Nat) : String :=
  ⟨s.data.take (s.data.length - n)⟩

/-- Python `s[n:]`. -/
def pyDropLeft (s : String) (n : Nat) : String := ⟨s.data.drop n⟩

/-- The `fns` dict after the boot-directory classification loop. -/
structure BootFns where
  ramdisk : Option String
  kernel : Option String
  base : Option String
deriving DecidableEq

/-- The `for fn in os.listdir(abs_join(root_dir, 'boot'))` loop
(build.py lines 192–199): classify each entry, later matches
overwriting earlier ones. -/
def scan_boot (listing : List String) : BootFns :=
  listing.foldl (fun fns fn =>
    let fns := if pyEndsWith fn ".img" && pyStartsWith fn "initramfs-"
      then { fns with ramdisk := Option.some fn } else fns
    let fns := if pyStartsWith fn "vmlinuz-"
      then { fns with kernel := Option.some fn } else fns
    if pyStartsWith fn "initrd-" && pyEndsWith fn ".img"
      then { fns with base := Option.some fn } else fns)
    ⟨Option.none, Option.none, Option.none⟩

/-- Lines 217–220: raise unless both a ramdisk and a kernel were
found, checking the ramdisk first. -/
def boot_result (rd k : Option String) : Except String (String × String) :=
  match rd with
  | Option.none => Except.error "No initramfs-*.img file found"
  | Option.some r =>
    match k with
    | Option.none => Except.error "No vmlinuz-* file found"
    | Option.some kk => Except.ok (r, kk)

/-- The outcome of boot-file resolution: the mkinitrd command issued by
the fallback (when taken) and the final result. -/
structure BootResolve where
  mkinitrd_cmd : Option (List String)
  result : Except String (String × String)

/-- Lines 200–220 of `ec2_convert`: look up the scanned ramdisk/kernel;
when both are absent but a generic `initrd-<kid>.img` is present, run
`chroot <root> /sbin/mkinitrd -f /boot/<base> <kid>` (an error from it
is fatal: `mkinitrd_ok` is the world's verdict) and re-resolve the two
filenames by `os.path.isfile` checks inside `<root>/boot`; finally fail
unless both names are present.  `isfile` is the post-fallback boot
directory membership test. -/
def resolve_boot (root_dir : String) (listing : List String)
    (isfile : String → Bool) (mkinitrd_ok : Bool) : BootResolve :=
  let fns := scan_boot listing
  match fns.ramdisk, fns.kernel, fns.base with
  | Option.none, Option.none, Option.some base =>
    let kid := pyDropLeft (pyDropRight base 4) 7
    let cmd := ["chroot", root_dir, "/sbin/mkinitrd", "-f",
      "/boot/" ++ base, kid]
    if mkinitrd_ok then
      let rd := if isfile ("initramfs-" ++ kid ++ ".img")
        then Option.some ("initramfs-" ++ kid ++ ".img") else Option.none
      let k := if isfile ("vmlinuz-" ++ kid)
        then Option.some ("vmlinuz-" ++ kid) else Option.none
      ⟨Option.some cmd, boot_result rd k⟩
    else ⟨Option.some cmd, Except.error "ProcessExecutionError: mkinitrd"⟩
  | rd, k, _ => ⟨Option.none, boot_result rd k⟩

theorem kid_of_initrd (v : String) :
    pyDropLeft (pyDropRight ("initrd-" ++ v ++ ".img") 4) 7 = v := by
  have h4 : (".img" : String).data.length = 4 := rfl
  have h7 : ("initrd-" : String).data.length = 7 := rfl
  rw [String.ext_iff]
  simp only [pyDropLeft, pyDropRight, String.data_append]
  have hlen : (("initrd-".data ++ v.data) ++ ".img".data).length - 4
      = ("initrd-".data ++ v.data).length := by
    rw [List.length_append ("initrd-".data ++ v.data) ".img".data, h4,
      Nat.add_sub_cancel]
  rw [hlen, List.take_left, ← h7, List.drop_left]

/-- C7: when the boot listing yields no `initramfs-*.img` ramdisk and no
`vmlinuz-*` kernel but a generic `initrd-<v>.img` is present, the
fallback regenerates a ramdisk for version `v` via
`chroot <root> /sbin/mkinitrd -f /boot/initrd-<v>.img <v>` and
re-resolves the expected filenames; if the ramdisk or the kernel is
still missing afterwards, resolution fails with a fatal error. -/
theorem claim_C7 (root_dir : String) (listing : List String)
    (isfile : String → Bool) (mkinitrd_ok : Bool) (v : String)
    (hscan : scan_boot listing = ⟨Option.none, Option.none,
        Option.some ("initrd-" ++ v ++ ".img")⟩) :
    (resolve_boot root_dir listing isfile mkinitrd_ok).mkinitrd_cmd
      = Option.some ["chroot", root_dir, "/sbin/mkinitrd", "-f",
          "/boot/" ++ ("initrd-" ++ v ++ ".img"), v]
    ∧ (mkinitrd_ok = true →
        ((isfile ("initramfs-" ++ v ++ ".img") = true
            ∧ isfile ("vmlinuz-" ++ v) = true) →
          (resolve_boot root_dir listing isfile mkinitrd_ok).result
            = Except.ok ("initramfs-" ++ v ++ ".img", "vmlinuz-" ++ v))
        ∧ (isfile ("initramfs-" ++ v ++ ".img") = false →
          (resolve_boot root_dir listing isfile mkinitrd_ok).result
            = Except.error "No initramfs-*.img file found")
        ∧ (isfile ("initramfs-" ++ v ++ ".img") = true →
          isfile ("vmlinuz-" ++ v) = false →
          (resolve_boot root_dir listing isfile mkinitrd_ok).result
            = Except.error "No vmlinuz-* file found")) := by
  have hres : resolve_boot root_dir listing isfile mkinitrd_ok
      = (let kid := pyDropLeft (pyDropRight ("initrd-" ++ v ++ ".img") 4) 7
         let cmd := ["chroot", root_dir, "/sbin/mkinitrd", "-f",
           "/boot/" ++ ("initrd-" ++ v ++ ".img"), kid]
         if mkinitrd_ok then
           let rd := if isfile ("initramfs-" ++ kid ++ ".img")
             then Option.some ("initramfs-" ++ kid ++ ".img") else Option.none
           let k := if isfile ("vmlinuz-" ++ kid)
             then Option.some ("vmlinuz-" ++ kid) else Option.none
           ⟨Option.some cmd, boot_result rd k⟩
         else ⟨Option.some cmd,
           Except.error "ProcessExecutionError: mkinitrd"⟩) := by
    unfold resolve_boot
    rw [hscan]
  rw [kid_of_initrd v] at hres
  refine ⟨?_, ?_⟩
  · rw [hres]
    cases mkinitrd_ok <;> rfl
  · intro hok
    subst hok
    refine ⟨?_, ?_, ?_⟩
    · intro hfiles
      rw [hres]
      simp [hfiles.1, hfiles.2, boot_result]
    · intro hrd
      rw [hres]
      simp [hrd, boot_result]
    · intro hrd hk
      rw [hres]
      simp [hrd, hk, boot_result]

theorem claim_C7_witness :
    (scan_boot ["initrd-2.6.18.img"] = ⟨Option.none, Option.none,
        Option.some ("initrd-" ++ "2.6.18" ++ ".img")⟩)
    ∧ ((resolve_boot "/mnt/root" ["initrd-2.6.18.img"] (fun _ => true)
          true).mkinitrd_cmd
        = Option.some ["chroot", "/mnt/root", "/sbin/mkinitrd", "-f",
            "/boot/" ++ ("initrd-" ++ "2.6.18" ++ ".img"), "2.6.18"]
      ∧ (true = true →
          (((fun (_ : String) => true) ("initramfs-" ++ "2.6.18" ++ ".img")
              = true
            ∧ (fun (_ : String) => true) ("vmlinuz-" ++ "2.6.18") = true) →
            (resolve_boot "/mnt/root" ["initrd-2.6.18.img"] (fun _ => true)
              true).result
              = Except.ok ("initramfs-" ++ "2.6.18" ++ ".img",
                  "vmlinuz-" ++ "2.6.18"))
          ∧ ((fun (_ : String) => true) ("initramfs-" ++ "2.6.18" ++ ".img")
              = false →
            (resolve_boot "/mnt/root" ["initrd-2.6.18.img"] (fun _ => true)
              true).result
              = Except.error "No initramfs-*.img file found")
          ∧ ((fun (_ : String) => true) ("initramfs-" ++ "2.6.18" ++ ".img")
              = true →
            (fun (_ : String) => true) ("vmlinuz-" ++ "2.6.18") = false →
            (resolve_boot "/mnt/root" ["initrd-2.6.18.img"] (fun _ => true)
              true).result
              = Except.error "No vmlinuz-* file found"))) :=
  ⟨by decide, claim_C7 "/mnt/root" ["initrd-2.6.18.img"] (fun _ => true)
      true "2.6.18" (by decide)⟩

/-! ### `make_virt_xml` (build.py lines 157–176) -/

/-- A character `urllib.quote` leaves unquoted with the default
`safe='/'`: ASCII letters, digits, `_`, `.`, `-`, and `/`. -/
def isUrlSafe (c : Char) : Bool :=
  c.isUpper || c.isLower || c.isDigit || c = '_' || c = '.' || c = '-'
    || c = '/'

/-- Uppercase hex digit of `n < 16`. -/
def hexDigit (n : Nat) : Char :=
  if n < 10 then Char.ofNat ('0'.toNat + n)
  else Char.ofNat ('A'.toNat + (n - 10))

/-- `urllib.quote(s)` (Python 2, byte strings): percent-encode every
character outside the safe set as `%XX` with uppercase hex. -/
def pyQuote (s : String) : String :=
  ⟨s.data.foldr (fun c acc =>
    if isUrlSafe c then c :: acc
    else '%' :: hexDigit (c.toNat / 16 % 16) :: hexDigit (c.toNat % 16)
      :: acc) []⟩

/-- `os.path.basename`: everything after the last `/`. -/
def basename (s : String) : String :=
  ⟨(s.data.reverse.takeWhile (fun c => decide (c ≠ '/'))).reverse⟩

/-- `uuid.NAMESPACE_URL`, the fixed namespace passed to `uuid.uuid5`. -/
def NAMESPACE_URL : String := "6ba7b811-9dad-11d1-80b4-00c04fd430c8"

/-- The `params` dict built by `make_virt_xml` (build.py lines 158–173)
and substituted into the `templates/virt.xml` template. -/
structure VirtParams where
  name : String
  memory : Nat
  kernel : String
  initrd : String
  root : String
deriving DecidableEq

/-- `make_virt_xml(kernel_fn, ram_fn, root_fn)`'s parameter set:
the name is `uuid5(NAMESPACE_URL, 'http://images.yahoo.com/%s/%s/%s' %
(quote(root_fn), quote(kernel_fn), quote(ram_fn)))`, the memory a fixed
512 MiB, and each path `'{basepath}/' + basename(fn)`.  `uuid5` is the
name-based (SHA-1) UUID function, abstracted as a parameter. -/
def make_virt_xml_params (uuid5 : String → String → String)
    (kernel_fn ram_fn root_fn : String) : VirtParams :=
  { name := uuid5 NAMESPACE_URL
      ("http://images.yahoo.com/" ++ pyQuote root_fn ++ "/"
        ++ pyQuote kernel_fn ++ "/" ++ pyQuote ram_fn),
    memory := 512 * 1024 * 1024,
    kernel := "{basepath}/" ++ basename kernel_fn,
    initrd := "{basepath}/" ++ basename ram_fn,
    root := "{basepath}/" ++ basename root_fn }

/-- C8: the virtualization descriptor's parameters are a deterministic
function of the three output file paths — two invocations on equal
paths embed the same name-based identifier (the `uuid5` hash of a URL
built from the three quoted paths, no other input) — together with the
fixed `512 * 1024 * 1024` memory value and `{basepath}/<basename>`
placeholders for kernel, initrd, and root image. -/
theorem claim_C8 (uuid5 : String → String → String)
    (k1 r1 t1 k2 r2 t2 : String)
    (hk : k1 = k2) (hr : r1 = r2) (ht : t1 = t2) :
    make_virt_xml_params uuid5 k1 r1 t1 = make_virt_xml_params uuid5 k2 r2 t2
    ∧ (make_virt_xml_params uuid5 k1 r1 t1).memory = 512 * 1024 * 1024
    ∧ (make_virt_xml_params uuid5 k1 r1 t1).kernel
        = "{basepath}/" ++ basename k1
    ∧ (make_virt_xml_params uuid5 k1 r1 t1).initrd
        = "{basepath}/" ++ basename r1
    ∧ (make_virt_xml_params uuid5 k1 r1 t1).root
        = "{basepath}/" ++ basename t1
    ∧ (make_virt_xml_params uuid5 k1 r1 t1).name
        = uuid5 NAMESPACE_URL ("http://images.yahoo.com/" ++ pyQuote t1
            ++ "/" ++ pyQuote k1 ++ "/" ++ pyQuote r1) := by
  subst hk; subst hr; subst ht
  exact ⟨rfl, rfl, rfl, rfl, rfl, rfl⟩

theorem claim_C8_witness :
    make_virt_xml_params (fun ns s => ns ++ s)
        "img/vmlinuz-2.6" "img/initramfs-2.6.img" "img/root.qcow2"
      = make_virt_xml_params (fun ns s => ns ++ s)
        "img/vmlinuz-2.6" "img/initramfs-2.6.img" "img/root.qcow2"
    ∧ (make_virt_xml_params (fun ns s => ns ++ s)
        "img/vmlinuz-2.6" "img/initramfs-2.6.img" "img/root.qcow2").memory
      = 512 * 1024 * 1024
    ∧ (make_virt_xml_params (fun ns s => ns ++ s)
        "img/vmlinuz-2.6" "img/initramfs-2.6.img" "img/root.qcow2").kernel
      = "{basepath}/" ++ basename "img/vmlinuz-2.6"
    ∧ (make_virt_xml_params (fun ns s => ns ++ s)
        "img/vmlinuz-2.6" "img/initramfs-2.6.img" "img/root.qcow2").initrd
      = "{basepath}/" ++ basename "img/initramfs-2.6.img"
    ∧ (make_virt_xml_params (fun ns s => ns ++ s)
        "img/vmlinuz-2.6" "img/initramfs-2.6.img" "img/root.qcow2").root
      = "{basepath}/" ++ basename "img/root.qcow2"
    ∧ (make_virt_xml_params (fun ns s => ns ++ s)
        "img/vmlinuz-2.6" "img/initramfs-2.6.img" "img/root.qcow2").name
      = (fun ns s => ns ++ s) NAMESPACE_URL
          ("http://images.yahoo.com/" ++ pyQuote "img/root.qcow2" ++ "/"
            ++ pyQuote "img/vmlinuz-2.6" ++ "/"
            ++ pyQuote "img/initramfs-2.6.img") :=
  claim_C8 (fun ns s => ns ++ s) "img/vmlinuz-2.6" "img/initramfs-2.6.img"
    "img/root.qcow2" "img/vmlinuz-2.6" "img/initramfs-2.6.img"
    "img/root.qcow2" rfl rfl rfl

/-! ### `TarBallDownloader.download` (builder/downloader/tar_ball.py) -/

/-- The downloader's configuration (`__init__`, tar_ball.py lines
25–28).  `config.get('cache_dir') or 'cache'` falls back on a missing
or falsy (empty) value. -/
structure DlConfig where
  cache_dir : Option String
  where_from : String
  root_file : Option String

def dl_cache_dir (cfg : DlConfig) : String :=
  match cfg.cache_dir with
  | Option.some s => if s = "" then "cache" else s
  | Option.none => "cache"

/-- Whether `self.root_file` is truthy (`if self.root_file:`,
tar_ball.py line 38). -/
def dl_has_root_file (cfg : DlConfig) : Bool :=
  match cfg.root_file with
  | Option.some s => decide (¬ s = "")
  | Option.none => false

/-- The downloader's world: the `os.path.isfile` cache test and the
outcomes of `download_url`, the metadata `write_file`, and the
extraction/copy work of `_adjust_real_root`. -/
structure DlWorld where
  isfile : String → Bool
  downloadOk : Bool
  metaWriteOk : Bool
  adjustOk : Bool

/-- The observable effects of one `download()` call: whether
`download_url` was invoked, whether the metadata sidecar was written,
whether the root-file adjustment work ran, whether the cache file was
deleted, and the outcome. -/
structure DlTrace where
  downloaded : Bool
  metaWritten : Bool
  adjustRan : Bool
  deletedCache : Bool
  result : Except String String

/-- `_check_cache` (tar_ball.py lines 30–35): the cache path is
`<cache_dir>/<hash>.tar.gz` where the hash is
`util.hash_blob(self.where_from, 'md5', mlen=8)`, abstracted as
`hash8`. -/
def check_cache_path (hash8 : String → String) (cfg : DlConfig) : String :=
  dl_cache_dir cfg ++ "/" ++ hash8 cfg.where_from ++ ".tar.gz"

/-- `download()` (tar_ball.py lines 54–73): return the cached path when
the cache file exists; otherwise run `download_url` (a failure there
propagates with nothing to delete), then — inside the `try` whose bare
`except` runs `util.del_file(cache_pth)` and re-raises — write the JSON
metadata sidecar and call `_adjust_real_root` (which extracts and
copies only when `root_file` is truthy). -/
def download (hash8 : String → String) (cfg : DlConfig) (w : DlWorld) :
    DlTrace :=
  let cache_pth := check_cache_path hash8 cfg
  if w.isfile cache_pth = true then
    ⟨false, false, false, false, Except.ok cache_pth⟩
  else if w.downloadOk = false then
    ⟨true, false, false, false, Except.error "download_url failed"⟩
  else if w.metaWriteOk = false then
    ⟨true, false, false, true, Except.error "write_file failed"⟩
  else if dl_has_root_file cfg = true ∧ w.adjustOk = false then
    ⟨true, true, true, true, Except.error "_adjust_real_root failed"⟩
  else
    ⟨true, true, dl_has_root_file cfg, false, Except.ok cache_pth⟩

def exceptIsError {ε α : Type} (e : Except ε α) : Bool :=
  match e with
  | Except.error _ => true
  | Except.ok _ => false

/-- C10: when the content-hash-keyed cache file exists, `download`
returns the cached path without downloading, writing metadata, or
adjusting the root file; when it does not exist and the download
succeeded but the metadata write fails — or the root-file adjustment is
needed and fails — the downloaded cache file is deleted and the error
propagates, so no cache tarball of a failed run survives. -/
theorem claim_C10 (hash8 : String → String) (cfg : DlConfig) (w : DlWorld) :
    (w.isfile (check_cache_path hash8 cfg) = true →
      download hash8 cfg w
        = ⟨false, false, false, false,
            Except.ok (check_cache_path hash8 cfg)⟩)
    ∧ (w.isfile (check_cache_path hash8 cfg) = false →
      w.downloadOk = true →
      (w.metaWriteOk = false
        ∨ (dl_has_root_file cfg = true ∧ w.adjustOk = false)) →
      (download hash8 cfg w).deletedCache = true
      ∧ exceptIsError (download hash8 cfg w).result = true) := by
  constructor
  · intro hhit
    simp [download, hhit]
  · intro hmiss hdl hfail
    rcases hfail with hmeta | hadj
    · simp [download, hmiss, hdl, hmeta, exceptIsError]
    · by_cases hmeta : w.metaWriteOk = false
      · simp [download, hmiss, hdl, hmeta, exceptIsError]
      · simp [download, hmiss, hdl, hmeta, hadj, exceptIsError]

theorem claim_C10_witness :
    (download (fun _ => "d41d8cd9")
        ⟨Option.none, "http://host/root.tar.gz", Option.none⟩
        ⟨fun _ => true, true, true, true⟩
      = ⟨false, false, false, false,
          Except.ok (check_cache_path (fun _ => "d41d8cd9")
            ⟨Option.none, "http://host/root.tar.gz", Option.none⟩)⟩)
    ∧ ((download (fun _ => "d41d8cd9")
        ⟨Option.none, "http://host/root.tar.gz", Option.none⟩
        ⟨fun _ => false, true, false, true⟩).deletedCache = true
      ∧ exceptIsError (download (fun _ => "d41d8cd9")
          ⟨Option.none, "http://host/root.tar.gz", Option.none⟩
          ⟨fun _ => false, true, false, true⟩).result = true) :=
  ⟨(claim_C10 (fun _ => "d41d8cd9")
      ⟨Option.none, "http://host/root.tar.gz", Option.none⟩
      ⟨fun _ => true, true, true, true⟩).1 rfl,
   (claim_C10 (fun _ => "d41d8cd9")
      ⟨Option.none, "http://host/root.tar.gz", Option.none⟩
      ⟨fun _ => false, true, false, true⟩).2 rfl rfl (Or.inl rfl)⟩

end ImageBuilder
